import Mathlib

/-!
Shallow embedding of `QgsMapRendererTask` (src/src/core/qgsmaprenderertask.cpp).

Numeric `double` values are modelled as exact rationals (`ℚ`).  The external
collaborators (Qt painters/printers, the GDAL library, the synchronous render
job) are modelled by an `Env` record of their observable outcomes, and the
side effects of `run()` are recorded as an explicit event trace.
-/

/-- Error codes of the task.  The enum itself lives in the header
(qgsmaprenderertask.h), which is not under src/; the `NoError` initial value
is modelled from the spec ("holds a mutable error code (initially none)").
The three failure codes are the ones assigned in qgsmaprenderertask.cpp. -/
inductive ErrorType
  | NoError
  | ImageAllocationFail
  | ImageSaveFail
  | ImageUnsupportedFormat
deriving DecidableEq

/-- Geographic extent rectangle (QgsRectangle), as used by the task. -/
structure QgsRectangle where
  xMinimum : ℚ
  yMinimum : ℚ
  xMaximum : ℚ
  yMaximum : ℚ
deriving DecidableEq

/-- QgsRectangle::width(). -/
def QgsRectangle.width (r : QgsRectangle) : ℚ := r.xMaximum - r.xMinimum

/-- QgsRectangle::height(). -/
def QgsRectangle.height (r : QgsRectangle) : ℚ := r.yMaximum - r.yMinimum

/-- The parts of QgsMapSettings read by the task: extent, integer output size
(QSize), output dpi, and the ordered layer list (layer pointers modelled as
natural-number identifiers). -/
structure QgsMapSettings where
  extent : QgsRectangle
  outputWidth : Int
  outputHeight : Int
  outputDpi : ℚ
  layers : List Nat
deriving DecidableEq

/-- The parts of a QgsAnnotation read by the compositing loop of run():
visibility, optional associated map layer (pointer modelled as an id),
placement mode and the two kinds of position. -/
structure QgsAnnotationItem where
  isVisible : Bool
  mapLayer : Option Nat
  hasFixedMapPosition : Bool
  mapPositionX : ℚ
  mapPositionY : ℚ
  relativePositionX : ℚ
  relativePositionY : ℚ
deriving DecidableEq

/-- Anchor position (itemX, itemY) computed for an annotation in run()
(qgsmaprenderertask.cpp lines 168-178). -/
def annotationAnchor (ms : QgsMapSettings) (ann : QgsAnnotationItem) : ℚ × ℚ :=
  if ann.hasFixedMapPosition then
    ((ms.outputWidth : ℚ) * (ann.mapPositionX - ms.extent.xMinimum) / ms.extent.width,
     (ms.outputHeight : ℚ) * (1 - (ann.mapPositionY - ms.extent.yMinimum) / ms.extent.height))
  else
    (ann.relativePositionX * (ms.outputWidth : ℚ),
     ann.relativePositionY * (ms.outputHeight : ℚ))

/-- Characterisation of the skip conditions of the annot loop in run()
(lines 156-163): an entry is rendered iff it is non-null, visible, and its
associated layer (when set) occurs in the settings' layer list. -/
def annotationEligible (ms : QgsMapSettings) (a : Option QgsAnnotationItem) : Bool :=
  match a with
  | none => false
  | some ann =>
    ann.isVisible &&
      (match ann.mapLayer with
       | none => true
       | some l => ms.layers.contains l)

/-- The six world-file parameters (a, b, c, d, e, f) produced by
QgsMapSettingsUtils::worldFileParameters. -/
structure WorldFileParameters where
  a : ℚ
  b : ℚ
  c : ℚ
  d : ℚ
  e : ℚ
  f : ℚ
deriving DecidableEq

/-- Modelled from the spec: `QgsMapSettingsUtils::worldFileParameters` is not
under src/.  Per spec section 4.1, for axis-aligned settings: pixel width
`a = extent.width / outputSize.width`, pixel height component `d` analogous
(negative, raster rows grow downward), rotation cross-terms `b`, `e` zero,
and origin terms `c`, `f` the extent's top-left geographic coordinate. -/
def worldFileParameters (ms : QgsMapSettings) : WorldFileParameters :=
  { a := ms.extent.width / (ms.outputWidth : ℚ)
    b := 0
    c := ms.extent.xMinimum
    d := -(ms.extent.height / (ms.outputHeight : ℚ))
    e := 0
    f := ms.extent.yMaximum }

/-- The six-coefficient affine geotransform, in the field order of the GDAL
array `{ c, a, b, f, d, e }` built in run() (lines 211 and 250). -/
structure GeoTransform where
  originX : ℚ
  pixelWidth : ℚ
  rotationB : ℚ
  originY : ℚ
  rotationD : ℚ
  pixelHeight : ℚ
deriving DecidableEq

/-- The geotransform written by run() (lines 205-211 and 244-250, identical
code in both branches): take the world-file parameters, shift each origin term
by half a pixel in both axes, and assemble `{ c, a, b, f, d, e }`. -/
def computeGeoTransform (ms : QgsMapSettings) : GeoTransform :=
  let p := worldFileParameters ms
  let c := p.c - 1 / 2 * p.a
  let c := c - 1 / 2 * p.b
  let f := p.f - 1 / 2 * p.d
  let f := f - 1 / 2 * p.e
  { originX := c
    pixelWidth := p.a
    rotationB := p.b
    originY := f
    rotationD := p.d
    pixelHeight := p.e }

/-- Modelled from the spec: `QgsMapSettingsUtils::worldFileContent` is not
under src/.  Per spec section 4.5 the sidecar holds six lines, in order:
pixel-width, row-rotation, column-rotation, pixel-height, origin-x and
origin-y (origins after the half-pixel shift). -/
def worldFileContent (ms : QgsMapSettings) : List ℚ :=
  let p := worldFileParameters ms
  let c := p.c - 1 / 2 * p.a - 1 / 2 * p.b
  let f := p.f - 1 / 2 * p.d - 1 / 2 * p.e
  [p.a, p.e, p.b, p.d, c, f]

/-- QFileInfo::baseName() of a file name (no directory part): all characters
up to, but not including, the first dot. -/
def qtBaseName (name : List Char) : List Char :=
  name.takeWhile (fun ch => ch != '.')

/-- QFileInfo::suffix() of a file name (no directory part): the characters
after, but not including, the last dot; empty when there is no dot. -/
def qtSuffix (name : List Char) : List Char :=
  if name.contains '.' then (name.reverse.takeWhile (fun ch => ch != '.')).reverse
  else []

/-- The world-file (sidecar) name built in run() lines 258-259:
`baseName + '.' + suffix.at(0) + suffix.at(suffix.size()-1) + 'w'`.
The directory prefix (`info.absolutePath() + '/'`), which run() copies
unchanged from the output path, is not modelled.  `at(0)` / `at(size()-1)` are
total here via defaults; run() only evaluates them on a non-empty suffix
whenever the output file name has an extension. -/
def worldFileName (f : List Char) : List Char :=
  qtBaseName f ++ '.' :: (qtSuffix f).headD 'w' :: (qtSuffix f).getLastD 'w' :: ['w']

/-- Definition following the specification's words, for comparison with
`worldFileName`: the sidecar name is the output name with its extension
replaced by (first character of the extension, last character of the
extension, the marker 'w'). -/
def sidecarNameSpec (f : List Char) : List Char :=
  f.take (f.length - (qtSuffix f).length) ++
    (qtSuffix f).headD 'w' :: (qtSuffix f).getLastD 'w' :: ['w']

/-- The "PDF" format string compared against mFileFormat. -/
def pdfFormat : List Char := ['P', 'D', 'F']

/-- The "tif" extension checked at line 238. -/
def tifExt : List Char := ['t', 'i', 'f']

/-- The "tiff" extension checked at line 238. -/
def tiffExt : List Char := ['t', 'i', 'f', 'f']

/-- Observable side effects of cancel() and run(), recorded as a trace. -/
inductive Event
  | printerCreated
  | imageCreated
  | jobCreated
  | jobRendered
  | jobCancelRequested
  | decorationRender (d : Nat)
  | annotationRender (i : Nat) (x : ℚ) (y : ℚ)
  | painterEnd
  | rasterMergedToPage
  | fileSaved
  | geoEmbedded (gt : GeoTransform)
  | sidecarWritten (name : List Char) (fileLines : List ℚ)
deriving DecidableEq

/-- Outcomes of the external collaborators of run(): whether the build has
printer (page-device) support, whether QImage allocation yields a null image,
whether QImage::save fails, whether GDALOpen on the written file succeeds,
and whether the sidecar QFile opens for writing. -/
structure Env where
  qtNoPrinter : Bool
  imageAllocFails : Bool
  imageSaveFails : Bool
  gdalOpenSucceeds : Bool
  worldFileOpenSucceeds : Bool
deriving DecidableEq

/-- State of a QgsMapRendererTask: the member fields of the class.  The two
painter-vs-file output modes are reflected by `mPainter` (whether an external
painter was supplied) and `mFileName`.  `canceled` is the task-level canceled
flag of the QgsTask base class, `mJob` whether a job handle currently exists. -/
structure QgsMapRendererTask where
  mMapSettings : QgsMapSettings
  mFileName : List Char
  mFileFormat : List Char
  mForceRaster : Bool
  mPainter : Bool
  mSaveWorldFile : Bool
  mAnnotations : List (Option QgsAnnotationItem)
  mDecorations : List Nat
  mError : ErrorType
  canceled : Bool
  mJob : Bool
deriving DecidableEq

/-- The (settings, fileName, fileFormat, forceRaster) constructor
(qgsmaprenderertask.cpp lines 31-38): no painter, all other members at their
defaults. -/
def QgsMapRendererTask.mkFileTask (ms : QgsMapSettings) (fileName fileFormat : List Char)
    (forceRaster : Bool) : QgsMapRendererTask :=
  { mMapSettings := ms
    mFileName := fileName
    mFileFormat := fileFormat
    mForceRaster := forceRaster
    mPainter := false
    mSaveWorldFile := false
    mAnnotations := []
    mDecorations := []
    mError := ErrorType.NoError
    canceled := false
    mJob := false }

/-- The (settings, painter) constructor (lines 40-45): an externally supplied
painter, empty file name and format. -/
def QgsMapRendererTask.mkPainterTask (ms : QgsMapSettings) : QgsMapRendererTask :=
  { mMapSettings := ms
    mFileName := []
    mFileFormat := []
    mForceRaster := false
    mPainter := true
    mSaveWorldFile := false
    mAnnotations := []
    mDecorations := []
    mError := ErrorType.NoError
    canceled := false
    mJob := false }

/-- addAnnotations (lines 47-57): the previous clones are destroyed and the
list is replaced by clones of the argument (cloning is identity here). -/
def QgsMapRendererTask.addAnnotations (t : QgsMapRendererTask)
    (l : List (Option QgsAnnotationItem)) : QgsMapRendererTask :=
  { t with mAnnotations := l }

/-- addDecorations (lines 59-62). -/
def QgsMapRendererTask.addDecorations (t : QgsMapRendererTask)
    (l : List Nat) : QgsMapRendererTask :=
  { t with mDecorations := l }

/-- cancel() (lines 65-73): under the job mutex, if a job handle exists its
non-blocking cancel request is issued; then QgsTask::cancel() marks the task
canceled.  Returns the new task state and the events of this call. -/
def QgsMapRendererTask.cancel (t : QgsMapRendererTask) :
    QgsMapRendererTask × List Event :=
  let jobEvents := if t.mJob then [Event.jobCancelRequested] else []
  ({ t with canceled := true }, jobEvents)

/-- Result of run(): the returned bool, the final error code, the canceled
flag, and the trace of observable effects. -/
structure RunResult where
  success : Bool
  mError : ErrorType
  canceled : Bool
  trace : List Event
deriving DecidableEq

/-- Modelled from the spec: the terminal outcome reported by the QgsTask base
class (not under src/) — "cancellation reported as its own terminal outcome,
distinct from error codes" (spec sections 4.6 and 7). -/
inductive TerminalOutcome
  | success
  | canceled
  | error (e : ErrorType)
deriving DecidableEq

/-- Modelled from the spec: classification of a finished run into the terminal
signal seen by callers (success, Canceled, or a genuine error code). -/
def terminalOutcome (r : RunResult) : TerminalOutcome :=
  if r.success then TerminalOutcome.success
  else if r.canceled then TerminalOutcome.canceled
  else TerminalOutcome.error r.mError

/-- The per-annotation loop of run() (lines 150-184), indexed from `i`:
returns the emitted events and `false` when the mid-loop `isCanceled()` check
(line 153) aborted the loop.  Skip conditions follow lines 156-163; for a
rendered entry the painter is translated to `annotationAnchor` and the
annotation's render operation invoked (lines 165-183). -/
def renderAnnotations (t : QgsMapRendererTask) :
    Nat → List (Option QgsAnnotationItem) → List Event × Bool
  | _, [] => ([], true)
  | i, a :: rest =>
    if t.canceled then ([], false)
    else
      let r := renderAnnotations t (i + 1) rest
      match a with
      | none => r
      | some ann =>
        if !ann.isVisible then r
        else if (match ann.mapLayer with
                 | some l => !(t.mMapSettings.layers.contains l)
                 | none => false) then r
        else
          (Event.annotationRender i (annotationAnchor t.mMapSettings ann).1
             (annotationAnchor t.mMapSettings ann).2 :: r.1, r.2)

/-- The sidecar write attempt (lines 260-266): the world file is written only
when the QFile opens for writing; its content is
QgsMapSettingsUtils::worldFileContent (line 265). -/
def sidecarEvents (t : QgsMapRendererTask) (env : Env) : List Event :=
  if env.worldFileOpenSucceeds then
    [Event.sidecarWritten (worldFileName t.mFileName) (worldFileContent t.mMapSettings)]
  else []

/-- The output-finalization phase of run() (lines 186-270), entered with the
trace `ev` accumulated so far.  Skipped when mFileName is empty; otherwise the
painter is ended, then either the raster is merged into the PDF page device
(with optional embedded geotransform), or the image is saved to file (with
optional embedded geotransform for tif/tiff, else a sidecar attempt). -/
def finalize (t : QgsMapRendererTask) (env : Env) (ev : List Event) : RunResult :=
  if t.mFileName = [] then
    { success := true, mError := t.mError, canceled := t.canceled, trace := ev }
  else
    let ev := ev ++ [Event.painterEnd]
    if t.mForceRaster = true ∧ t.mFileFormat = pdfFormat then
      if env.qtNoPrinter then
        { success := false, mError := ErrorType.ImageUnsupportedFormat,
          canceled := t.canceled, trace := ev }
      else
        let ev := ev ++ [Event.rasterMergedToPage]
        let ev := if t.mSaveWorldFile = true ∧ env.gdalOpenSucceeds = true then
            ev ++ [Event.geoEmbedded (computeGeoTransform t.mMapSettings)]
          else ev
        { success := true, mError := t.mError, canceled := t.canceled, trace := ev }
    else if t.mFileFormat ≠ pdfFormat then
      if env.imageSaveFails then
        { success := false, mError := ErrorType.ImageSaveFail,
          canceled := t.canceled, trace := ev }
      else
        let ev := ev ++ [Event.fileSaved]
        if t.mSaveWorldFile then
          if (qtSuffix t.mFileName = tifExt ∨ qtSuffix t.mFileName = tiffExt)
              ∧ env.gdalOpenSucceeds = true then
            { success := true, mError := t.mError, canceled := t.canceled,
              trace := ev ++ [Event.geoEmbedded (computeGeoTransform t.mMapSettings)] }
          else
            { success := true, mError := t.mError, canceled := t.canceled,
              trace := ev ++ sidecarEvents t env }
        else
          { success := true, mError := t.mError, canceled := t.canceled, trace := ev }
    else
      { success := true, mError := t.mError, canceled := t.canceled, trace := ev }

/-- Middle part of run() (lines 129-184): the render job is created under the
mutex, rendered synchronously and cleared; then the task-level canceled flag
is checked (line 138); then decorations render in list order (lines 144-148)
and the annotation loop runs (lines 150-184). -/
def runAfterJob (t : QgsMapRendererTask) (env : Env) (ev : List Event) : RunResult :=
  let ev := ev ++ [Event.jobCreated, Event.jobRendered]
  if t.canceled then
    { success := false, mError := t.mError, canceled := t.canceled, trace := ev }
  else
    let ev := ev ++ t.mDecorations.map Event.decorationRender
    let r := renderAnnotations t 0 t.mAnnotations
    let ev := ev ++ r.1
    if r.2 then finalize t env ev
    else { success := false, mError := t.mError, canceled := t.canceled, trace := ev }

/-- Surface resolution for a raster destination (lines 109-127): when no
destination painter exists yet, a QImage is allocated (failure sets
ImageAllocationFail); afterwards a destination painter always exists, so the
defensive null check at line 126 never fires. -/
def runSurface (t : QgsMapRendererTask) (env : Env) (ev : List Event)
    (destPainter : Bool) : RunResult :=
  if !destPainter then
    if env.imageAllocFails then
      { success := false, mError := ErrorType.ImageAllocationFail,
        canceled := t.canceled, trace := ev }
    else
      runAfterJob t env (ev ++ [Event.imageCreated])
  else
    runAfterJob t env ev

/-- run() (lines 75-273).  The destination painter starts as the externally
supplied one; a "PDF" file format allocates a printer page device (failing
with ImageUnsupportedFormat when printer support is compiled out) and, unless
force-raster is set, retargets the destination painter to it (lines 85-107). -/
def QgsMapRendererTask.run (t : QgsMapRendererTask) (env : Env) : RunResult :=
  let destPainter := t.mPainter
  if t.mFileFormat = pdfFormat then
    if env.qtNoPrinter then
      { success := false, mError := ErrorType.ImageUnsupportedFormat,
        canceled := t.canceled, trace := [] }
    else
      let ev := [Event.printerCreated]
      let destPainter := if !t.mForceRaster then true else destPainter
      runSurface t env ev destPainter
  else
    runSurface t env [] destPainter

/-- Tests whether an event is a decoration render operation. -/
def isDecorationRenderEvent : Event → Bool
  | Event.decorationRender _ => true
  | _ => false

/-- Tests whether an event is an annot render operation (any index). -/
def isAnnotationRenderEvent : Event → Bool
  | Event.annotationRender _ _ _ => true
  | _ => false

/-- Tests whether an event is the render operation of the annot at index `i`
of the task's list. -/
def isAnnotationRenderAt (i : Nat) : Event → Bool
  | Event.annotationRender j _ _ => j == i
  | _ => false

/-- Tests whether an event is the job's non-blocking cancel request. -/
def isCancelRequestEvent : Event → Bool
  | Event.jobCancelRequested => true
  | _ => false

/-- Tests whether an event embeds geo-metadata into the output file. -/
def isGeoEmbedEvent : Event → Bool
  | Event.geoEmbedded _ => true
  | _ => false

/-- Tests whether an event writes a sidecar world file. -/
def isSidecarEvent : Event → Bool
  | Event.sidecarWritten _ _ => true
  | _ => false

/-- Tests whether an event writes a sidecar world file with the given name. -/
def isSidecarNamed (n : List Char) : Event → Bool
  | Event.sidecarWritten m _ => m == n
  | _ => false

/-- Tests whether an event closes the drawing surface (QPainter::end). -/
def isPainterEndEvent : Event → Bool
  | Event.painterEnd => true
  | _ => false

/-- Tests whether an event saves the rendered image to a file. -/
def isFileSavedEvent : Event → Bool
  | Event.fileSaved => true
  | _ => false

/-- Tests whether an event merges the raster buffer into the page device. -/
def isMergeEvent : Event → Bool
  | Event.rasterMergedToPage => true
  | _ => false

/-- Example map settings: extent (0,0)-(100,100), output 200x100, dpi 96,
one layer with id 7. -/
def msEx : QgsMapSettings :=
  { extent := { xMinimum := 0, yMinimum := 0, xMaximum := 100, yMaximum := 100 }
    outputWidth := 200
    outputHeight := 100
    outputDpi := 96
    layers := [7] }

/-- Environment in which every collaborator succeeds. -/
def envOk : Env :=
  { qtNoPrinter := false, imageAllocFails := false, imageSaveFails := false,
    gdalOpenSucceeds := true, worldFileOpenSucceeds := true }

/-- Environment in which GDALOpen fails but the sidecar file opens. -/
def envNoGdal : Env :=
  { qtNoPrinter := false, imageAllocFails := false, imageSaveFails := false,
    gdalOpenSucceeds := false, worldFileOpenSucceeds := true }

/-- Environment in which GDALOpen fails and the sidecar file does not open. -/
def envNoGdalNoSidecar : Env :=
  { qtNoPrinter := false, imageAllocFails := false, imageSaveFails := false,
    gdalOpenSucceeds := false, worldFileOpenSucceeds := false }

/-- Environment of a build without printer (page-device) support. -/
def envNoPrinter : Env :=
  { qtNoPrinter := true, imageAllocFails := false, imageSaveFails := false,
    gdalOpenSucceeds := true, worldFileOpenSucceeds := true }

/-- A visible annot, associated with layer 7, at the fixed map position
(50,50) — the geographic center of `msEx`. -/
def annCenterEx : QgsAnnotationItem :=
  { isVisible := true, mapLayer := some 7, hasFixedMapPosition := true,
    mapPositionX := 50, mapPositionY := 50,
    relativePositionX := 0, relativePositionY := 0 }

/-- A visible annot with relative placement (1/2, 1/4) and no layer. -/
def annRelEx : QgsAnnotationItem :=
  { isVisible := true, mapLayer := none, hasFixedMapPosition := false,
    mapPositionX := 0, mapPositionY := 0,
    relativePositionX := 1 / 2, relativePositionY := 1 / 4 }

/-- The file name "map.png". -/
def fileNamePng : List Char := ['m', 'a', 'p', '.', 'p', 'n', 'g']

/-- The file name "map.tif". -/
def fileNameTif : List Char := ['m', 'a', 'p', '.', 't', 'i', 'f']

/-- The file name "a.b.png", whose base contains a dot. -/
def fileNameMultiDot : List Char := ['a', '.', 'b', '.', 'p', 'n', 'g']

/-- A PNG file task that was canceled before run() started. -/
def taskCanceledEx : QgsMapRendererTask :=
  { QgsMapRendererTask.mkFileTask msEx fileNamePng ['P', 'N', 'G'] false with
    canceled := true }

/-- A TIF file task with save-worldfile enabled. -/
def taskTifEx : QgsMapRendererTask :=
  { QgsMapRendererTask.mkFileTask msEx fileNameTif ['T', 'I', 'F'] false with
    mSaveWorldFile := true }

/-- A PNG file task with save-worldfile enabled. -/
def taskPngWfEx : QgsMapRendererTask :=
  { QgsMapRendererTask.mkFileTask msEx fileNamePng ['P', 'N', 'G'] false with
    mSaveWorldFile := true }

/-- A PNG file task (output "a.b.png") with save-worldfile enabled. -/
def taskMultiDotEx : QgsMapRendererTask :=
  { QgsMapRendererTask.mkFileTask msEx fileNameMultiDot ['P', 'N', 'G'] false with
    mSaveWorldFile := true }

/-- A PDF file task. -/
def taskPdfEx : QgsMapRendererTask :=
  QgsMapRendererTask.mkFileTask msEx ['m', 'a', 'p', '.', 'p', 'd', 'f'] pdfFormat false

/-- A PNG file task with one eligible annot and one decoration. -/
def taskAnnEx : QgsMapRendererTask :=
  { QgsMapRendererTask.mkFileTask msEx fileNamePng ['P', 'N', 'G'] false with
    mAnnotations := [some annCenterEx], mDecorations := [3] }

theorem renderAnnotations_canceled (t : QgsMapRendererTask) (h : t.canceled = true) :
    ∀ (l : List (Option QgsAnnotationItem)) (i : Nat),
      (renderAnnotations t i l).1 = [] := by
  intro l i
  cases l with
  | nil => simp [renderAnnotations]
  | cons a rest => simp [renderAnnotations, h]

theorem renderAnnotations_snd (t : QgsMapRendererTask) (h : t.canceled = false) :
    ∀ (l : List (Option QgsAnnotationItem)) (i : Nat),
      (renderAnnotations t i l).2 = true := by
  intro l
  induction l with
  | nil => intro i; simp [renderAnnotations]
  | cons a rest ih =>
    intro i
    simp only [renderAnnotations]
    rw [if_neg (by simp [h])]
    cases a with
    | none => exact ih (i + 1)
    | some ann =>
      dsimp only
      split_ifs with h1 h2 <;> simpa using ih (i + 1)

theorem renderAnnotations_mem (t : QgsMapRendererTask) :
    ∀ (l : List (Option QgsAnnotationItem)) (i : Nat) (e : Event),
      e ∈ (renderAnnotations t i l).1 → isAnnotationRenderEvent e = true := by
  intro l
  induction l with
  | nil => intro i e he; simp [renderAnnotations] at he
  | cons a rest ih =>
    intro i e he
    by_cases h : t.canceled = true
    · rw [renderAnnotations_canceled t h] at he
      simp at he
    · simp only [Bool.not_eq_true] at h
      simp only [renderAnnotations] at he
      rw [if_neg (by simp [h])] at he
      cases a with
      | none => exact ih (i + 1) e he
      | some ann =>
        dsimp only at he
        revert he
        split_ifs with h1 h2 <;> intro he
        · exact ih (i + 1) e he
        · exact ih (i + 1) e he
        · rcases List.mem_cons.mp he with h' | h'
          · rw [h']; rfl
          · exact ih (i + 1) e h'

theorem renderAnnotations_countP_zero (t : QgsMapRendererTask) (p : Event → Bool)
    (hp : ∀ i x y, p (Event.annotationRender i x y) = false)
    (l : List (Option QgsAnnotationItem)) (i : Nat) :
    ((renderAnnotations t i l).1).countP p = 0 := by
  rw [List.countP_eq_zero]
  intro e he
  have hm := renderAnnotations_mem t l i e he
  cases e <;> simp_all [isAnnotationRenderEvent, hp]

theorem renderAnnotations_count_lt (t : QgsMapRendererTask) :
    ∀ (l : List (Option QgsAnnotationItem)) (i j : Nat), j < i →
      ((renderAnnotations t i l).1).countP (isAnnotationRenderAt j) = 0 := by
  intro l
  induction l with
  | nil => intro i j hj; simp [renderAnnotations]
  | cons a rest ih =>
    intro i j hj
    by_cases h : t.canceled = true
    · rw [renderAnnotations_canceled t h]; rfl
    · simp only [Bool.not_eq_true] at h
      simp only [renderAnnotations]
      rw [if_neg (by simp [h])]
      cases a with
      | none => exact ih (i + 1) j (by omega)
      | some ann =>
        dsimp only
        split_ifs with h1 h2
        · exact ih (i + 1) j (by omega)
        · exact ih (i + 1) j (by omega)
        · have hne : (i == j) = false := by
            simp only [beq_eq_false_iff_ne]
            omega
          simp [List.countP_cons, isAnnotationRenderAt, hne, ih (i + 1) j (by omega)]

theorem renderAnnotations_count (t : QgsMapRendererTask) (h : t.canceled = false) :
    ∀ (l : List (Option QgsAnnotationItem)) (i j : Nat),
      ((renderAnnotations t i l).1).countP (isAnnotationRenderAt (i + j)) =
        (match l[j]? with
         | some a => if annotationEligible t.mMapSettings a then 1 else 0
         | none => 0) := by
  intro l
  induction l with
  | nil => intro i j; simp [renderAnnotations]
  | cons a rest ih =>
    intro i j
    simp only [renderAnnotations]
    rw [if_neg (by simp [h])]
    cases j with
    | zero =>
      cases a with
      | none =>
        simpa [annotationEligible] using
          renderAnnotations_count_lt t rest (i + 1) (i + 0) (by omega)
      | some ann =>
        dsimp only
        split_ifs with h1 h2
        · have := renderAnnotations_count_lt t rest (i + 1) (i + 0) (by omega)
          simp_all [annotationEligible]
        · have := renderAnnotations_count_lt t rest (i + 1) (i + 0) (by omega)
          cases hml : ann.mapLayer <;> simp_all [annotationEligible]
        · have h0 := renderAnnotations_count_lt t rest (i + 1) (i + 0) (by omega)
          have heq : (i == i + 0) = true := by simp
          have hel : annotationEligible t.mMapSettings (some ann) = true := by
            cases hml : ann.mapLayer <;> simp_all [annotationEligible]
          simp only [List.countP_cons, isAnnotationRenderAt, heq, hel]
          simp only [List.getElem?_cons_zero, hel, if_true]
          have h0' : List.countP (isAnnotationRenderAt (i + 0)) (renderAnnotations t (i + 1) rest).1 = 0 := h0
          omega
    | succ j' =>
      have harith : i + (j' + 1) = (i + 1) + j' := by omega
      rw [harith]
      cases a with
      | none => simpa using ih (i + 1) j'
      | some ann =>
        dsimp only
        split_ifs with h1 h2
        · simpa using ih (i + 1) j'
        · simpa using ih (i + 1) j'
        · have hne : (i == (i + 1) + j') = false := by
            simp only [beq_eq_false_iff_ne]
            omega
          simpa [List.countP_cons, isAnnotationRenderAt, hne] using ih (i + 1) j'

theorem renderAnnotations_count_inel (t : QgsMapRendererTask) :
    ∀ (l : List (Option QgsAnnotationItem)) (i j : Nat) (a : Option QgsAnnotationItem),
      l[j]? = some a → annotationEligible t.mMapSettings a = false →
      ((renderAnnotations t i l).1).countP (isAnnotationRenderAt (i + j)) = 0 := by
  intro l
  induction l with
  | nil => intro i j a hga _; simp at hga
  | cons b rest ih =>
    intro i j a hga hel
    by_cases h : t.canceled = true
    · rw [renderAnnotations_canceled t h]; rfl
    · simp only [Bool.not_eq_true] at h
      simp only [renderAnnotations]
      rw [if_neg (by simp [h])]
      cases j with
      | zero =>
        have hba : b = a := by simpa using hga
        subst hba
        cases b with
        | none => exact renderAnnotations_count_lt t rest (i + 1) (i + 0) (by omega)
        | some ann =>
          dsimp only
          split_ifs with h1 h2
          · exact renderAnnotations_count_lt t rest (i + 1) (i + 0) (by omega)
          · exact renderAnnotations_count_lt t rest (i + 1) (i + 0) (by omega)
          · exfalso
            cases hml : ann.mapLayer <;> simp_all [annotationEligible]
      | succ j' =>
        have harith : i + (j' + 1) = (i + 1) + j' := by omega
        rw [harith]
        have hga' : rest[j']? = some a := by simpa using hga
        cases b with
        | none => exact ih (i + 1) j' a hga' hel
        | some ann =>
          dsimp only
          split_ifs with h1 h2
          · exact ih (i + 1) j' a hga' hel
          · exact ih (i + 1) j' a hga' hel
          · have hne : (i == (i + 1) + j') = false := by
              simp only [beq_eq_false_iff_ne]
              omega
            simpa [List.countP_cons, isAnnotationRenderAt, hne] using ih (i + 1) j' a hga' hel

theorem finalize_countP (t : QgsMapRendererTask) (env : Env) (ev : List Event)
    (p : Event → Bool)
    (hA : p Event.painterEnd = false) (hB : p Event.rasterMergedToPage = false)
    (hC : p Event.fileSaved = false) (hD : ∀ gt, p (Event.geoEmbedded gt) = false)
    (hE : ∀ n ls, p (Event.sidecarWritten n ls) = false) :
    ((finalize t env ev).trace).countP p = ev.countP p := by
  simp only [finalize, sidecarEvents]
  split_ifs <;> simp [List.countP_append, List.countP_cons, hA, hB, hC, hD, hE]

theorem runAfterJob_countP (t : QgsMapRendererTask) (env : Env) (ev : List Event)
    (p : Event → Bool)
    (hF : p Event.jobCreated = false) (hG : p Event.jobRendered = false)
    (hH : ∀ d, p (Event.decorationRender d) = false)
    (hA : p Event.painterEnd = false) (hB : p Event.rasterMergedToPage = false)
    (hC : p Event.fileSaved = false) (hD : ∀ gt, p (Event.geoEmbedded gt) = false)
    (hE : ∀ n ls, p (Event.sidecarWritten n ls) = false) :
    ((runAfterJob t env ev).trace).countP p =
      ev.countP p + ((renderAnnotations t 0 t.mAnnotations).1).countP p := by
  have hdm : (t.mDecorations.map Event.decorationRender).countP p = 0 := by
    rw [List.countP_eq_zero]
    intro e he
    rcases List.mem_map.mp he with ⟨d, _, rfl⟩
    simp [hH]
  simp only [runAfterJob]
  split_ifs with hc hr
  · rw [renderAnnotations_canceled t hc]
    simp [List.countP_append, List.countP_cons, hF, hG]
  · rw [finalize_countP t env _ p hA hB hC hD hE]
    simp [List.countP_append, List.countP_cons, hF, hG, hdm]
  · simp [List.countP_append, List.countP_cons, hF, hG, hdm]

theorem run_countP_eq (t : QgsMapRendererTask) (env : Env) (p : Event → Bool)
    (hI : p Event.printerCreated = false) (hJ : p Event.imageCreated = false)
    (hF : p Event.jobCreated = false) (hG : p Event.jobRendered = false)
    (hH : ∀ d, p (Event.decorationRender d) = false)
    (hA : p Event.painterEnd = false) (hB : p Event.rasterMergedToPage = false)
    (hC : p Event.fileSaved = false) (hD : ∀ gt, p (Event.geoEmbedded gt) = false)
    (hE : ∀ n ls, p (Event.sidecarWritten n ls) = false)
    (halloc : env.imageAllocFails = false)
    (hpdf : ¬(t.mFileFormat = pdfFormat ∧ env.qtNoPrinter = true)) :
    ((t.run env).trace).countP p =
      ((renderAnnotations t 0 t.mAnnotations).1).countP p := by
  simp only [QgsMapRendererTask.run, runSurface, halloc]
  split_ifs <;>
    simp_all [runAfterJob_countP t env _ p hF hG hH hA hB hC hD hE,
      List.countP_cons, hI, hJ]

theorem run_countP_le (t : QgsMapRendererTask) (env : Env) (p : Event → Bool)
    (hI : p Event.printerCreated = false) (hJ : p Event.imageCreated = false)
    (hF : p Event.jobCreated = false) (hG : p Event.jobRendered = false)
    (hH : ∀ d, p (Event.decorationRender d) = false)
    (hA : p Event.painterEnd = false) (hB : p Event.rasterMergedToPage = false)
    (hC : p Event.fileSaved = false) (hD : ∀ gt, p (Event.geoEmbedded gt) = false)
    (hE : ∀ n ls, p (Event.sidecarWritten n ls) = false) :
    ((t.run env).trace).countP p ≤
      ((renderAnnotations t 0 t.mAnnotations).1).countP p := by
  simp only [QgsMapRendererTask.run, runSurface]
  split_ifs <;>
    simp_all [runAfterJob_countP t env _ p hF hG hH hA hB hC hD hE,
      List.countP_cons, hI, hJ]

theorem renderAnnotations_no_geo (t : QgsMapRendererTask)
    (l : List (Option QgsAnnotationItem)) (i : Nat) (gt : GeoTransform) :
    Event.geoEmbedded gt ∉ (renderAnnotations t i l).1 := by
  intro h
  have hm := renderAnnotations_mem t l i _ h
  simp [isAnnotationRenderEvent] at hm

theorem finalize_geo (t : QgsMapRendererTask) (env : Env) (ev : List Event)
    (gt : GeoTransform) (h : Event.geoEmbedded gt ∈ (finalize t env ev).trace) :
    Event.geoEmbedded gt ∈ ev ∨ gt = computeGeoTransform t.mMapSettings := by
  simp only [finalize, sidecarEvents] at h
  split_ifs at h <;> simp_all [List.mem_append]

theorem runAfterJob_geo (t : QgsMapRendererTask) (env : Env) (ev : List Event)
    (gt : GeoTransform) (h : Event.geoEmbedded gt ∈ (runAfterJob t env ev).trace) :
    Event.geoEmbedded gt ∈ ev ∨ gt = computeGeoTransform t.mMapSettings := by
  have hng := renderAnnotations_no_geo t t.mAnnotations 0 gt
  simp only [runAfterJob] at h
  split_ifs at h with hc hr
  · simp only [List.mem_append] at h
    simp_all
  · rcases finalize_geo t env _ gt h with h' | h'
    · simp only [List.mem_append, List.mem_map] at h'
      simp_all
    · exact Or.inr h'
  · simp only [List.mem_append, List.mem_map] at h
    simp_all

theorem run_geoEmbedded_val (t : QgsMapRendererTask) (env : Env) (gt : GeoTransform)
    (h : Event.geoEmbedded gt ∈ (t.run env).trace) :
    gt = computeGeoTransform t.mMapSettings := by
  simp only [QgsMapRendererTask.run, runSurface] at h
  split_ifs at h
  all_goals try simp at h
  all_goals
    rcases runAfterJob_geo t env _ gt h with h' | h'
    · simp at h'
    · exact h'

/-- C2: for every MapSettings, the geotransform written to the output's
geo-metadata has origin terms equal to the base origin terms shifted by half a
pixel in both axes (`c - 0.5*(a+b)`, `f - 0.5*(d+e)`), and pixel width equal
to extent.width / outputSize.width; and every geo-metadata embed performed by
run() carries exactly this transform. -/
theorem geoTransform_halfPixelShift (ms : QgsMapSettings) :
    (computeGeoTransform ms).originX =
        (worldFileParameters ms).c -
          1 / 2 * ((worldFileParameters ms).a + (worldFileParameters ms).b)
    ∧ (computeGeoTransform ms).originY =
        (worldFileParameters ms).f -
          1 / 2 * ((worldFileParameters ms).d + (worldFileParameters ms).e)
    ∧ (computeGeoTransform ms).pixelWidth = ms.extent.width / (ms.outputWidth : ℚ)
    ∧ ∀ (t : QgsMapRendererTask) (env : Env) (gt : GeoTransform),
        t.mMapSettings = ms → Event.geoEmbedded gt ∈ (t.run env).trace →
        gt = computeGeoTransform ms := by
  refine ⟨by simp only [computeGeoTransform]; ring,
    by simp only [computeGeoTransform]; ring, rfl, ?_⟩
  intro t env gt hms hmem
  rw [← hms]
  exact run_geoEmbedded_val t env gt hmem

/-- C4: for a fixed-map-position annot (positive extent and output size), the
anchor is `x = W * (ax - xmin) / extentWidth`,
`y = H * (1 - (ay - ymin) / extentHeight)`; an annot at the extent's
geographic center maps to `(W/2, H/2)`. -/
theorem fixedPosition_anchor (ms : QgsMapSettings) (ann : QgsAnnotationItem)
    (hfix : ann.hasFixedMapPosition = true)
    (hw : 0 < ms.extent.width) (hh : 0 < ms.extent.height)
    (hW : 0 < ms.outputWidth) (hH : 0 < ms.outputHeight) :
    (annotationAnchor ms ann).1 =
        (ms.outputWidth : ℚ) * (ann.mapPositionX - ms.extent.xMinimum) / ms.extent.width
    ∧ (annotationAnchor ms ann).2 =
        (ms.outputHeight : ℚ) *
          (1 - (ann.mapPositionY - ms.extent.yMinimum) / ms.extent.height)
    ∧ (ann.mapPositionX = (ms.extent.xMinimum + ms.extent.xMaximum) / 2 →
       ann.mapPositionY = (ms.extent.yMinimum + ms.extent.yMaximum) / 2 →
       annotationAnchor ms ann = ((ms.outputWidth : ℚ) / 2, (ms.outputHeight : ℚ) / 2)) := by
  refine ⟨by simp [annotationAnchor, hfix], by simp [annotationAnchor, hfix], ?_⟩
  intro hx hy
  have hw' : ms.extent.width ≠ 0 := ne_of_gt hw
  have hh' : ms.extent.height ≠ 0 := ne_of_gt hh
  have h1 : (ms.outputWidth : ℚ) * (ann.mapPositionX - ms.extent.xMinimum) /
      ms.extent.width = (ms.outputWidth : ℚ) / 2 := by
    rw [hx]
    have hxw : (ms.extent.xMinimum + ms.extent.xMaximum) / 2 - ms.extent.xMinimum =
        ms.extent.width / 2 := by
      simp only [QgsRectangle.width]; ring
    rw [hxw]
    field_simp
    ring
  have h2 : (ms.outputHeight : ℚ) *
      (1 - (ann.mapPositionY - ms.extent.yMinimum) / ms.extent.height) =
      (ms.outputHeight : ℚ) / 2 := by
    rw [hy]
    have hyh : (ms.extent.yMinimum + ms.extent.yMaximum) / 2 - ms.extent.yMinimum =
        ms.extent.height / 2 := by
      simp only [QgsRectangle.height]; ring
    rw [hyh]
    have hhalf : ms.extent.height / 2 / ms.extent.height = 1 / 2 := by
      field_simp
      ring
    rw [hhalf]
    ring
  simp only [annotationAnchor, hfix, if_true, Prod.mk.injEq]
  exact ⟨h1, h2⟩

/-- C5: for a relative-placement annot the anchor is
`(relX * W, relY * H)`; relative (0,0) maps to pixel (0,0) and relative (1,1)
maps to `(W, H)`. -/
theorem relativePosition_anchor (ms : QgsMapSettings) (ann : QgsAnnotationItem)
    (hrel : ann.hasFixedMapPosition = false) :
    (annotationAnchor ms ann).1 = ann.relativePositionX * (ms.outputWidth : ℚ)
    ∧ (annotationAnchor ms ann).2 = ann.relativePositionY * (ms.outputHeight : ℚ)
    ∧ (ann.relativePositionX = 0 → ann.relativePositionY = 0 →
         annotationAnchor ms ann = (0, 0))
    ∧ (ann.relativePositionX = 1 → ann.relativePositionY = 1 →
         annotationAnchor ms ann = ((ms.outputWidth : ℚ), (ms.outputHeight : ℚ))) := by
  refine ⟨by simp [annotationAnchor, hrel], by simp [annotationAnchor, hrel], ?_, ?_⟩
  · intro hx hy
    simp [annotationAnchor, hrel, hx, hy]
  · intro hx hy
    simp [annotationAnchor, hrel, hx, hy]

/-- C6: every cancel() call issues the job's non-blocking cancel request
exactly when a job handle exists at that moment (hence at most once per call),
and always marks the task itself canceled. -/
theorem cancel_requestsJobOnce (t : QgsMapRendererTask) :
    (t.cancel.2.countP isCancelRequestEvent = if t.mJob = true then 1 else 0)
    ∧ t.cancel.2.countP isCancelRequestEvent ≤ 1
    ∧ t.cancel.1.canceled = true := by
  cases h : t.mJob <;> simp [QgsMapRendererTask.cancel, h, isCancelRequestEvent]

/-- C1: if the task-level canceled flag is set before run() starts, run()
returns failure with the Canceled terminal outcome, and no annot render
operation and no decoration render operation is invoked during that run. -/
theorem run_cancelBeforeStart (t : QgsMapRendererTask) (env : Env)
    (hc : t.canceled = true) :
    (t.run env).success = false
    ∧ terminalOutcome (t.run env) = TerminalOutcome.canceled
    ∧ ((t.run env).trace).countP isDecorationRenderEvent = 0
    ∧ ((t.run env).trace).countP isAnnotationRenderEvent = 0 := by
  simp only [QgsMapRendererTask.run, runSurface, runAfterJob, terminalOutcome]
  split_ifs <;>
    simp_all [isDecorationRenderEvent, isAnnotationRenderEvent, List.countP_cons]

/-- C8: a PDF destination format on a runtime without page-device support
makes run() fail with the unsupported-format error code with an empty effect
trace: no drawing surface is created, no render job is constructed, and no
drawing occurs. -/
theorem run_pdfUnsupported (t : QgsMapRendererTask) (env : Env)
    (hf : t.mFileFormat = pdfFormat) (hp : env.qtNoPrinter = true) :
    (t.run env).success = false
    ∧ (t.run env).mError = ErrorType.ImageUnsupportedFormat
    ∧ (t.run env).trace = [] := by
  simp [QgsMapRendererTask.run, hf, hp]

theorem run_noFile_noFinalize (t : QgsMapRendererTask) (env : Env)
    (hfn : t.mFileName = []) (hff : t.mFileFormat ≠ pdfFormat) :
    ((t.run env).trace).countP isPainterEndEvent = 0
    ∧ ((t.run env).trace).countP isFileSavedEvent = 0
    ∧ ((t.run env).trace).countP isGeoEmbedEvent = 0
    ∧ ((t.run env).trace).countP isSidecarEvent = 0
    ∧ ((t.run env).trace).countP isMergeEvent = 0 := by
  have z1 := renderAnnotations_countP_zero t isPainterEndEvent
    (fun i x y => rfl) t.mAnnotations 0
  have z2 := renderAnnotations_countP_zero t isFileSavedEvent
    (fun i x y => rfl) t.mAnnotations 0
  have z3 := renderAnnotations_countP_zero t isGeoEmbedEvent
    (fun i x y => rfl) t.mAnnotations 0
  have z4 := renderAnnotations_countP_zero t isSidecarEvent
    (fun i x y => rfl) t.mAnnotations 0
  have z5 := renderAnnotations_countP_zero t isMergeEvent
    (fun i x y => rfl) t.mAnnotations 0
  simp only [QgsMapRendererTask.run, runSurface, runAfterJob, finalize]
  split_ifs <;>
    simp_all [List.countP_append, List.countP_cons, List.countP_map, Function.comp,
      isPainterEndEvent, isFileSavedEvent, isGeoEmbedEvent, isSidecarEvent, isMergeEvent]

/-- C9: a task constructed with an externally supplied painter (whatever
annotations and decorations are later added) skips the whole finalization
phase on run(): the surface is not closed by the task, no file save, no
geo-metadata embed, no sidecar write and no raster-to-page merge occur. -/
theorem painterTask_skipsFinalization (ms : QgsMapSettings)
    (anns : List (Option QgsAnnotationItem)) (decs : List Nat) (env : Env) :
    ((((QgsMapRendererTask.mkPainterTask ms).addAnnotations anns).addDecorations
        decs).run env).trace.countP isPainterEndEvent = 0
    ∧ ((((QgsMapRendererTask.mkPainterTask ms).addAnnotations anns).addDecorations
        decs).run env).trace.countP isFileSavedEvent = 0
    ∧ ((((QgsMapRendererTask.mkPainterTask ms).addAnnotations anns).addDecorations
        decs).run env).trace.countP isGeoEmbedEvent = 0
    ∧ ((((QgsMapRendererTask.mkPainterTask ms).addAnnotations anns).addDecorations
        decs).run env).trace.countP isSidecarEvent = 0
    ∧ ((((QgsMapRendererTask.mkPainterTask ms).addAnnotations anns).addDecorations
        decs).run env).trace.countP isMergeEvent = 0 :=
  run_noFile_noFinalize _ env rfl
    (by simp [QgsMapRendererTask.mkPainterTask, QgsMapRendererTask.addAnnotations,
      QgsMapRendererTask.addDecorations, pdfFormat])

/-- C3: an annot whose associated layer is absent from the settings' layer
list, an invisible annot, and a null entry are never rendered; in a run that
reaches composition (not canceled, surface allocated, format supported), an
eligible annot is rendered exactly once. -/
theorem annotationFilter_renderCount (t : QgsMapRendererTask) (env : Env) (i : Nat)
    (a : Option QgsAnnotationItem) (hga : t.mAnnotations[i]? = some a) :
    (annotationEligible t.mMapSettings a = false →
        ((t.run env).trace).countP (isAnnotationRenderAt i) = 0)
    ∧ (t.canceled = false → env.imageAllocFails = false →
        ¬(t.mFileFormat = pdfFormat ∧ env.qtNoPrinter = true) →
        ((t.run env).trace).countP (isAnnotationRenderAt i) =
          if annotationEligible t.mMapSettings a then 1 else 0) := by
  constructor
  · intro hel
    have hle := run_countP_le t env (isAnnotationRenderAt i)
      rfl rfl rfl rfl (fun d => rfl) rfl rfl rfl (fun gt => rfl) (fun n ls => rfl)
    have hz := renderAnnotations_count_inel t t.mAnnotations 0 i a hga hel
    simp only [Nat.zero_add] at hz
    omega
  · intro hc hal hpdf
    rw [run_countP_eq t env (isAnnotationRenderAt i)
      rfl rfl rfl rfl (fun d => rfl) rfl rfl rfl (fun gt => rfl) (fun n ls => rfl)
      hal hpdf]
    have hcount := renderAnnotations_count t hc t.mAnnotations 0 i
    simp only [Nat.zero_add] at hcount
    rw [hcount, hga]

/-- C7 counterexample: for the output name "a.b.png" (non-empty extension
"png") run() writes the sidecar as "a.pgw" — the base name is cut at the
FIRST dot — whereas replacing the extension of "a.b.png" would give
"a.b.pgw"; no sidecar with the extension-replaced name is written. -/
theorem sidecarName_counterexample :
    qtSuffix fileNameMultiDot ≠ []
    ∧ List.countP (isSidecarNamed (['a', '.', 'p', 'g', 'w'] : List Char))
        ((taskMultiDotEx.run envOk).trace) = 1
    ∧ (['a', '.', 'p', 'g', 'w'] : List Char) ≠ sidecarNameSpec fileNameMultiDot
    ∧ List.countP (isSidecarNamed (sidecarNameSpec fileNameMultiDot))
        ((taskMultiDotEx.run envOk).trace) = 0 := by decide

/-- C7 (amended): with save-worldfile enabled for a raster (non-embedding)
format and a non-empty extension, run() writes a sidecar named with the
portion of the file name before its FIRST dot, then '.', then the first
character of the extension, the last character of the extension and the
marker 'w'; its content is the six world-file lines (pixel-width,
row-rotation, column-rotation, pixel-height, origin-x, origin-y) whose first
line is the pixel width. -/
theorem worldFileSidecar (t : QgsMapRendererTask) (env : Env)
    (hfn : t.mFileName ≠ [])
    (hff : t.mFileFormat ≠ pdfFormat)
    (hswf : t.mSaveWorldFile = true)
    (hntif : ¬(qtSuffix t.mFileName = tifExt ∨ qtSuffix t.mFileName = tiffExt))
    (hsuf : qtSuffix t.mFileName ≠ [])
    (hwf : env.worldFileOpenSucceeds = true)
    (hc : t.canceled = false) (hal : env.imageAllocFails = false)
    (hsv : env.imageSaveFails = false) :
    Event.sidecarWritten (worldFileName t.mFileName) (worldFileContent t.mMapSettings)
        ∈ (t.run env).trace
    ∧ worldFileName t.mFileName =
        qtBaseName t.mFileName ++ '.' :: (qtSuffix t.mFileName).headD 'w' ::
          (qtSuffix t.mFileName).getLastD 'w' :: ['w']
    ∧ (worldFileContent t.mMapSettings).length = 6
    ∧ (worldFileContent t.mMapSettings).headD 0 = (worldFileParameters t.mMapSettings).a := by
  refine ⟨?_, rfl, rfl, rfl⟩
  have hsnd := renderAnnotations_snd t hc t.mAnnotations 0
  have main : ∀ ev : List Event,
      Event.sidecarWritten (worldFileName t.mFileName) (worldFileContent t.mMapSettings)
        ∈ (runAfterJob t env ev).trace := by
    intro ev
    simp only [runAfterJob]
    rw [if_neg (by simp [hc]), if_pos hsnd]
    simp only [finalize]
    rw [if_neg hfn, if_neg (fun h => hff h.2), if_pos hff,
      if_neg (by simp [hsv]), if_pos hswf, if_neg (fun h => hntif h.1)]
    simp only [sidecarEvents]
    rw [if_pos hwf]
    simp [List.mem_append]
  simp only [QgsMapRendererTask.run]
  rw [if_neg hff]
  simp only [runSurface]
  by_cases hp : t.mPainter = true
  · rw [if_neg (by simp [hp])]
    exact main []
  · rw [if_pos (by simp [Bool.not_eq_true] at hp; simp [hp]), if_neg (by simp [hal])]
    exact main ([] ++ [Event.imageCreated])

theorem run_canceled_notSuccess (t : QgsMapRendererTask) (env : Env)
    (hc : t.canceled = true) : (t.run env).success = false := by
  simp only [QgsMapRendererTask.run, runSurface, runAfterJob]
  split_ifs <;> simp_all

theorem run_saveFails_notSuccess (t : QgsMapRendererTask) (env : Env)
    (hfn : t.mFileName ≠ []) (hff : t.mFileFormat ≠ pdfFormat)
    (hsv : env.imageSaveFails = true) : (t.run env).success = false := by
  by_cases hc : t.canceled = true
  · exact run_canceled_notSuccess t env hc
  · have hc' : t.canceled = false := by simpa using hc
    have hsnd := renderAnnotations_snd t hc' t.mAnnotations 0
    have main : ∀ ev : List Event, (runAfterJob t env ev).success = false := by
      intro ev
      simp only [runAfterJob]
      rw [if_neg (by simp [hc']), if_pos hsnd]
      simp only [finalize]
      rw [if_neg hfn, if_neg (fun h => hff h.2), if_pos hff, if_pos hsv]
    simp only [QgsMapRendererTask.run]
    rw [if_neg hff]
    simp only [runSurface]
    by_cases hp : t.mPainter = true
    · rw [if_neg (by simp [hp])]
      exact main []
    · have hp' : t.mPainter = false := by simpa using hp
      rw [if_pos (by simp [hp'])]
      by_cases ha : env.imageAllocFails = true
      · rw [if_pos ha]
      · rw [if_neg (by simp [ha])]
        exact main _

/-- C10 counterexample: a successful run on "map.tif" with save-worldfile
enabled in which GDALOpen fails AND the sidecar file fails to open produces
NEITHER embedded geo-metadata nor a sidecar — run() still returns success. -/
theorem tifWorldFile_counterexample :
    (taskTifEx.run envNoGdalNoSidecar).success = true
    ∧ List.countP isGeoEmbedEvent ((taskTifEx.run envNoGdalNoSidecar).trace) = 0
    ∧ List.countP isSidecarEvent ((taskTifEx.run envNoGdalNoSidecar).trace) = 0 := by
  decide

/-- C10 (amended): for a tif/tiff output with save-worldfile enabled, the
sidecar is skipped exactly when reopening the written file for metadata
update succeeds; provided the sidecar file can be opened for writing, every
successful run produces exactly one of embedded geo-metadata or sidecar. -/
theorem tifEmbedXorSidecar (t : QgsMapRendererTask) (env : Env)
    (hfn : t.mFileName ≠ [])
    (hff : t.mFileFormat ≠ pdfFormat)
    (hswf : t.mSaveWorldFile = true)
    (htif : qtSuffix t.mFileName = tifExt ∨ qtSuffix t.mFileName = tiffExt)
    (hwf : env.worldFileOpenSucceeds = true)
    (hs : (t.run env).success = true) :
    (env.gdalOpenSucceeds = true →
        ((t.run env).trace).countP isGeoEmbedEvent = 1
        ∧ ((t.run env).trace).countP isSidecarEvent = 0)
    ∧ (env.gdalOpenSucceeds = false →
        ((t.run env).trace).countP isGeoEmbedEvent = 0
        ∧ ((t.run env).trace).countP isSidecarEvent = 1) := by
  have hc : t.canceled = false := by
    by_contra h
    rw [run_canceled_notSuccess t env (by simpa using h)] at hs
    exact absurd hs (by simp)
  have hsv : env.imageSaveFails = false := by
    by_contra h
    rw [run_saveFails_notSuccess t env hfn hff (by simpa using h)] at hs
    exact absurd hs (by simp)
  have hsnd := renderAnnotations_snd t hc t.mAnnotations 0
  have z3 := renderAnnotations_countP_zero t isGeoEmbedEvent
    (fun i x y => rfl) t.mAnnotations 0
  have z4 := renderAnnotations_countP_zero t isSidecarEvent
    (fun i x y => rfl) t.mAnnotations 0
  have main : ∀ ev : List Event,
      ev.countP isGeoEmbedEvent = 0 → ev.countP isSidecarEvent = 0 →
      ((runAfterJob t env ev).trace).countP isGeoEmbedEvent =
          (if env.gdalOpenSucceeds = true then 1 else 0)
      ∧ ((runAfterJob t env ev).trace).countP isSidecarEvent =
          (if env.gdalOpenSucceeds = true then 0 else 1) := by
    intro ev hev3 hev4
    simp only [runAfterJob]
    rw [if_neg (by simp [hc]), if_pos hsnd]
    simp only [finalize]
    rw [if_neg hfn, if_neg (fun h => hff h.2), if_pos hff,
      if_neg (by simp [hsv]), if_pos hswf]
    by_cases hg : env.gdalOpenSucceeds = true
    · rw [if_pos ⟨htif, hg⟩]
      constructor <;>
        simp [List.countP_append, List.countP_cons, List.countP_map, Function.comp,
          isGeoEmbedEvent, isSidecarEvent, z3, z4, hev3, hev4, hg]
    · rw [if_neg (fun h => hg h.2)]
      simp only [sidecarEvents]
      rw [if_pos hwf]
      constructor <;>
        simp [List.countP_append, List.countP_cons, List.countP_map, Function.comp,
          isGeoEmbedEvent, isSidecarEvent, z3, z4, hev3, hev4, hg]
  have final :
      ((t.run env).trace).countP isGeoEmbedEvent =
          (if env.gdalOpenSucceeds = true then 1 else 0)
      ∧ ((t.run env).trace).countP isSidecarEvent =
          (if env.gdalOpenSucceeds = true then 0 else 1) := by
    simp only [QgsMapRendererTask.run]
    rw [if_neg hff]
    simp only [runSurface]
    by_cases hp : t.mPainter = true
    · rw [if_neg (by simp [hp])]
      exact main [] rfl rfl
    · have hp' : t.mPainter = false := by simpa using hp
      rw [if_pos (by simp [hp'])]
      by_cases ha : env.imageAllocFails = true
      · exfalso
        have hfail : (t.run env).success = false := by
          simp only [QgsMapRendererTask.run]
          rw [if_neg hff]
          simp only [runSurface]
          rw [if_pos (by simp [hp']), if_pos ha]
        rw [hfail] at hs
        exact absurd hs (by simp)
      · rw [if_neg (by simp [ha])]
        exact main ([] ++ [Event.imageCreated]) rfl rfl
  rcases final with ⟨f1, f2⟩
  constructor
  · intro hg
    rw [f1, f2]
    simp [hg]
  · intro hg
    rw [f1, f2]
    simp [hg]

/-- Witness for C1 at a concrete canceled task. -/
theorem run_cancelBeforeStart_witness :
    taskCanceledEx.canceled = true
    ∧ ((taskCanceledEx.run envOk).success = false
      ∧ terminalOutcome (taskCanceledEx.run envOk) = TerminalOutcome.canceled
      ∧ ((taskCanceledEx.run envOk).trace).countP isDecorationRenderEvent = 0
      ∧ ((taskCanceledEx.run envOk).trace).countP isAnnotationRenderEvent = 0) :=
  ⟨by with_unfolding_all decide, run_cancelBeforeStart taskCanceledEx envOk (by with_unfolding_all decide)⟩

/-- Witness for C2 at a concrete tif task whose run embeds geo-metadata. -/
theorem geoTransform_halfPixelShift_witness :
    taskTifEx.mMapSettings = msEx
    ∧ Event.geoEmbedded (computeGeoTransform msEx) ∈ (taskTifEx.run envOk).trace
    ∧ computeGeoTransform msEx = computeGeoTransform msEx :=
  ⟨by with_unfolding_all decide, by with_unfolding_all decide,
    (geoTransform_halfPixelShift msEx).2.2.2 taskTifEx envOk
      (computeGeoTransform msEx) (by with_unfolding_all decide) (by with_unfolding_all decide)⟩

/-- Witness for C3 at a concrete task with one eligible annot at index 0. -/
theorem annotationFilter_renderCount_witness :
    taskAnnEx.mAnnotations[0]? = some (some annCenterEx)
    ∧ ((annotationEligible taskAnnEx.mMapSettings (some annCenterEx) = false →
          ((taskAnnEx.run envOk).trace).countP (isAnnotationRenderAt 0) = 0)
      ∧ (taskAnnEx.canceled = false → envOk.imageAllocFails = false →
          ¬(taskAnnEx.mFileFormat = pdfFormat ∧ envOk.qtNoPrinter = true) →
          ((taskAnnEx.run envOk).trace).countP (isAnnotationRenderAt 0) =
            if annotationEligible taskAnnEx.mMapSettings (some annCenterEx) then 1
            else 0)) :=
  ⟨by with_unfolding_all decide, annotationFilter_renderCount taskAnnEx envOk 0 (some annCenterEx) (by with_unfolding_all decide)⟩

/-- Witness for C4 at the example settings and the center annot. -/
theorem fixedPosition_anchor_witness :
    annCenterEx.hasFixedMapPosition = true
    ∧ 0 < msEx.extent.width
    ∧ 0 < msEx.extent.height
    ∧ 0 < msEx.outputWidth
    ∧ 0 < msEx.outputHeight
    ∧ ((annotationAnchor msEx annCenterEx).1 =
          (msEx.outputWidth : ℚ) * (annCenterEx.mapPositionX - msEx.extent.xMinimum) /
            msEx.extent.width
      ∧ (annotationAnchor msEx annCenterEx).2 =
          (msEx.outputHeight : ℚ) *
            (1 - (annCenterEx.mapPositionY - msEx.extent.yMinimum) / msEx.extent.height)
      ∧ (annCenterEx.mapPositionX = (msEx.extent.xMinimum + msEx.extent.xMaximum) / 2 →
         annCenterEx.mapPositionY = (msEx.extent.yMinimum + msEx.extent.yMaximum) / 2 →
         annotationAnchor msEx annCenterEx =
           ((msEx.outputWidth : ℚ) / 2, (msEx.outputHeight : ℚ) / 2))) :=
  ⟨by with_unfolding_all decide, by with_unfolding_all decide, by with_unfolding_all decide, by with_unfolding_all decide, by with_unfolding_all decide,
    fixedPosition_anchor msEx annCenterEx (by with_unfolding_all decide) (by with_unfolding_all decide) (by with_unfolding_all decide)
      (by with_unfolding_all decide) (by with_unfolding_all decide)⟩

/-- Witness for C5 at the example settings and the relative annot. -/
theorem relativePosition_anchor_witness :
    annRelEx.hasFixedMapPosition = false
    ∧ ((annotationAnchor msEx annRelEx).1 =
          annRelEx.relativePositionX * (msEx.outputWidth : ℚ)
      ∧ (annotationAnchor msEx annRelEx).2 =
          annRelEx.relativePositionY * (msEx.outputHeight : ℚ)
      ∧ (annRelEx.relativePositionX = 0 → annRelEx.relativePositionY = 0 →
           annotationAnchor msEx annRelEx = (0, 0))
      ∧ (annRelEx.relativePositionX = 1 → annRelEx.relativePositionY = 1 →
           annotationAnchor msEx annRelEx =
             ((msEx.outputWidth : ℚ), (msEx.outputHeight : ℚ)))) :=
  ⟨by with_unfolding_all decide, relativePosition_anchor msEx annRelEx (by with_unfolding_all decide)⟩

/-- Witness for C7 (amended) at the "map.png" task with save-worldfile on. -/
theorem worldFileSidecar_witness :
    taskPngWfEx.mFileName ≠ []
    ∧ taskPngWfEx.mFileFormat ≠ pdfFormat
    ∧ taskPngWfEx.mSaveWorldFile = true
    ∧ ¬(qtSuffix taskPngWfEx.mFileName = tifExt ∨
        qtSuffix taskPngWfEx.mFileName = tiffExt)
    ∧ qtSuffix taskPngWfEx.mFileName ≠ []
    ∧ envOk.worldFileOpenSucceeds = true
    ∧ taskPngWfEx.canceled = false
    ∧ envOk.imageAllocFails = false
    ∧ envOk.imageSaveFails = false
    ∧ (Event.sidecarWritten (worldFileName taskPngWfEx.mFileName)
          (worldFileContent taskPngWfEx.mMapSettings) ∈ (taskPngWfEx.run envOk).trace
      ∧ worldFileName taskPngWfEx.mFileName =
          qtBaseName taskPngWfEx.mFileName ++ '.' ::
            (qtSuffix taskPngWfEx.mFileName).headD 'w' ::
            (qtSuffix taskPngWfEx.mFileName).getLastD 'w' :: ['w']
      ∧ (worldFileContent taskPngWfEx.mMapSettings).length = 6
      ∧ (worldFileContent taskPngWfEx.mMapSettings).headD 0 =
          (worldFileParameters taskPngWfEx.mMapSettings).a) :=
  ⟨by with_unfolding_all decide, by with_unfolding_all decide, by with_unfolding_all decide, by with_unfolding_all decide, by with_unfolding_all decide, by with_unfolding_all decide, by with_unfolding_all decide,
    by with_unfolding_all decide, by with_unfolding_all decide,
    worldFileSidecar taskPngWfEx envOk (by with_unfolding_all decide) (by with_unfolding_all decide) (by with_unfolding_all decide) (by with_unfolding_all decide)
      (by with_unfolding_all decide) (by with_unfolding_all decide) (by with_unfolding_all decide) (by with_unfolding_all decide) (by with_unfolding_all decide)⟩

/-- Witness for C8 at a concrete PDF task on a printerless build. -/
theorem run_pdfUnsupported_witness :
    taskPdfEx.mFileFormat = pdfFormat
    ∧ envNoPrinter.qtNoPrinter = true
    ∧ ((taskPdfEx.run envNoPrinter).success = false
      ∧ (taskPdfEx.run envNoPrinter).mError = ErrorType.ImageUnsupportedFormat
      ∧ (taskPdfEx.run envNoPrinter).trace = []) :=
  ⟨by with_unfolding_all decide, by with_unfolding_all decide, run_pdfUnsupported taskPdfEx envNoPrinter (by with_unfolding_all decide) (by with_unfolding_all decide)⟩

/-- Witness for C10 (amended) at the "map.tif" task in an environment where
GDALOpen succeeds. -/
theorem tifEmbedXorSidecar_witness :
    taskTifEx.mFileName ≠ []
    ∧ taskTifEx.mFileFormat ≠ pdfFormat
    ∧ taskTifEx.mSaveWorldFile = true
    ∧ (qtSuffix taskTifEx.mFileName = tifExt ∨ qtSuffix taskTifEx.mFileName = tiffExt)
    ∧ envOk.worldFileOpenSucceeds = true
    ∧ (taskTifEx.run envOk).success = true
    ∧ ((envOk.gdalOpenSucceeds = true →
          ((taskTifEx.run envOk).trace).countP isGeoEmbedEvent = 1
          ∧ ((taskTifEx.run envOk).trace).countP isSidecarEvent = 0)
      ∧ (envOk.gdalOpenSucceeds = false →
          ((taskTifEx.run envOk).trace).countP isGeoEmbedEvent = 0
          ∧ ((taskTifEx.run envOk).trace).countP isSidecarEvent = 1)) :=
  ⟨by with_unfolding_all decide, by with_unfolding_all decide, by with_unfolding_all decide, by with_unfolding_all decide, by with_unfolding_all decide, by with_unfolding_all decide,
    tifEmbedXorSidecar taskTifEx envOk (by with_unfolding_all decide) (by with_unfolding_all decide) (by with_unfolding_all decide)
      (by with_unfolding_all decide) (by with_unfolding_all decide) (by with_unfolding_all decide)⟩
